import Mathlib

/-!
Verification of the `ConfigPreset` / `ConfigManager` core of the
Claude-code-API-configuration-tool repository.

The repository holds two Python files, `env_manager_darkmode.py` and
`env_manager_pure_pyqt6.py`; each contains a `ConfigPreset` data class and a
`ConfigManager` that loads and saves a list of presets to a JSON file
(`env_config.json`) and applies a preset to environment variables.  The two
copies are embedded here as the namespaces `Darkmode` and `Pyqt6`.

Modelling choices:
* The JSON file is modelled at the level of JSON values (`JValue`), plus a
  `FileState` that records whether the file is absent, holds unparseable
  bytes, or holds a JSON value.  `json.dump` followed by `json.load` is the
  identity on values, so the round-trip claims are stated at value level.
* Python dictionaries are association lists with first-match lookup; the
  dictionaries arising from `json.load` have no duplicate keys, so the
  first-match convention coincides with Python dict lookup.
* `os.environ` is a partial map `String → Option String`.
* Any exception inside `_load_presets`'s `try` block (malformed JSON, a
  non-list top level, an element that is not a dict, a missing key) is one
  of the failure cases collapsed into `Option` here, matching the blanket
  `except Exception` in the source.
-/

/-- A JSON value, restricted to the shapes the program reads and writes:
strings, arrays and objects.  (The config file produced by the program only
ever holds these; any other JSON shape fails `from_dict`, which the `other`
constructor represents for completeness.) -/
inductive JValue where
  | str (s : String)
  | arr (elems : List JValue)
  | obj (fields : List (String × JValue))
  | other
deriving Repr

/-- Python dict lookup (`data['k']`) on the association list of an object:
first binding with the key, `none` for a `KeyError`. -/
def jlookup (key : String) : List (String × JValue) → Option JValue
  | [] => none
  | (k, v) :: rest => if key = k then some v else jlookup key rest

/-- `ConfigPreset`: five string fields, identical in both source files. -/
structure ConfigPreset where
  name : String
  auth_token : String
  base_url : String
  model : String
  small_fast_model : String
deriving Repr, DecidableEq

/-- `ConfigPreset.to_dict`: the five-key dictionary, in source order. -/
def ConfigPreset.to_dict (p : ConfigPreset) : List (String × JValue) :=
  [("name", .str p.name),
   ("auth_token", .str p.auth_token),
   ("base_url", .str p.base_url),
   ("model", .str p.model),
   ("small_fast_model", .str p.small_fast_model)]

/-- `ConfigPreset.from_dict`: looks up the five keys; a missing key raises
`KeyError` in the source, i.e. `none` here.  A non-string value is also
mapped to `none` (the data model and the file format are string-valued). -/
def ConfigPreset.from_dict (data : List (String × JValue)) : Option ConfigPreset :=
  match jlookup "name" data, jlookup "auth_token" data, jlookup "base_url" data,
        jlookup "model" data, jlookup "small_fast_model" data with
  | some (.str n), some (.str a), some (.str b), some (.str m), some (.str s) =>
      some ⟨n, a, b, m, s⟩
  | _, _, _, _, _ => none

/-- One element of the loaded JSON array: must be a dict for `data['name']`
to succeed; any other shape raises in the source (caught by the blanket
`except`). -/
def parsePreset : JValue → Option ConfigPreset
  | .obj fields => ConfigPreset.from_dict fields
  | _ => none

/-- Elementwise conversion of the loaded array: every element must convert,
a single failure fails the whole comprehension (the exception propagates
to the surrounding `try`). -/
def parsePresetList : List JValue → Option (List ConfigPreset)
  | [] => some []
  | v :: rest =>
      match parsePreset v, parsePresetList rest with
      | some p, some ps => some (p :: ps)
      | _, _ => none

/-- `[ConfigPreset.from_dict(preset) for preset in data]`: the top-level
value must be an array and every element must convert; any exception is
caught by the caller, i.e. `none` here. -/
def parsePresets : JValue → Option (List ConfigPreset)
  | .arr elems => parsePresetList elems
  | _ => none

/-- State of the backing file `env_config.json`. -/
inductive FileState where
  | absent
  | malformed (raw : String)
  | json (v : JValue)
deriving Repr

/-- In-memory preset list together with the backing file (the mutable state
of a `ConfigManager` instance, both files use the same shape). -/
structure ManagerState where
  presets : List ConfigPreset
  file : FileState
deriving Repr

/-- The process environment `os.environ` as a partial map. -/
def Env := String → Option String

/-- `os.environ[k] = v`. -/
def envSet (env : Env) (k v : String) : Env :=
  fun k2 => if k2 = k then some v else env k2

namespace Darkmode

/-- The hard-coded default preset list of `env_manager_darkmode.py`. -/
def default_presets : List ConfigPreset :=
  [⟨"测试",
    "sk-6jwTXRuJ02L5rvKEXa8uiSjErD5sGJwdfIi9r6tohQKgGU4g",
    "https://api.test.com/anthropic",
    "deepseek-chat",
    "deepseek-chat"⟩]

/-- `_save_presets`: serialize the full list and overwrite the file. -/
def save_presets (presets : List ConfigPreset) : FileState :=
  .json (.arr (presets.map (fun p => .obj p.to_dict)))

/-- `_load_presets`: returns the loaded list and the resulting file state.
Missing file: write and return the defaults.  Existing file: parse it; on
any failure return the defaults without writing. -/
def load_presets : FileState → List ConfigPreset × FileState
  | .absent => (default_presets, save_presets default_presets)
  | .malformed raw => (default_presets, .malformed raw)
  | .json v =>
      match parsePresets v with
      | some ps => (ps, .json v)
      | none => (default_presets, .json v)

/-- `add_preset`: append, then save the full list. -/
def add_preset (st : ManagerState) (p : ConfigPreset) : ManagerState :=
  let ps := st.presets ++ [p]
  ⟨ps, save_presets ps⟩

/-- `delete_preset`: `if 0 <= index < len(self.presets)` pop and save,
otherwise do nothing. -/
def delete_preset (st : ManagerState) (index : Int) : ManagerState :=
  if 0 ≤ index ∧ index < (st.presets.length : Int) then
    let ps := st.presets.eraseIdx index.toNat
    ⟨ps, save_presets ps⟩
  else st

/-- `apply_preset`, in-process part: the four `os.environ` assignments, in
source order. -/
def apply_preset (p : ConfigPreset) (env : Env) : Env :=
  envSet (envSet (envSet (envSet env
    "ANTHROPIC_AUTH_TOKEN" p.auth_token)
    "ANTHROPIC_BASE_URL" p.base_url)
    "ANTHROPIC_MODEL" p.model)
    "ANTHROPIC_SMALL_FAST_MODEL" p.small_fast_model

/-- Outcome of the whole `apply_preset` body, including the Windows branch
that writes `HKEY_CURRENT_USER\Environment`.  `registry` is the set of
values written to the persistent store on success (`none` when the platform
branch was skipped or the write raised); `warning` records whether the
`except` branch printed its warning. -/
structure ApplyResult where
  env : Env
  registry : Option (List (String × String))
  warning : Bool

/-- `apply_preset` with the platform-dependent persistent write.  `isWin32`
is `sys.platform == 'win32'`; `regWriteFails` is whether the `winreg` block
raises.  The `try/except` makes a failed persistent write print a warning
and fall through; the in-process assignments always happen first. -/
def apply_preset_full (p : ConfigPreset) (env : Env)
    (isWin32 : Bool) (regWriteFails : Bool) : ApplyResult :=
  let env2 := apply_preset p env
  if isWin32 then
    if regWriteFails then
      { env := env2, registry := none, warning := true }
    else
      { env := env2,
        registry := some
          [("ANTHROPIC_AUTH_TOKEN", p.auth_token),
           ("ANTHROPIC_BASE_URL", p.base_url),
           ("ANTHROPIC_MODEL", p.model),
           ("ANTHROPIC_SMALL_FAST_MODEL", p.small_fast_model)],
        warning := false }
  else
    { env := env2, registry := none, warning := false }

end Darkmode

namespace Pyqt6

/-- The hard-coded default preset list of `env_manager_pure_pyqt6.py`.
Its name field is `"测试配置"`, not the `"测试"` of the darkmode file. -/
def default_presets : List ConfigPreset :=
  [⟨"测试配置",
    "sk-6jwTXRuJ02L5rvKEXa8uiSjErD5sGJwdfIi9r6tohQKgGU4g",
    "https://api.test.com/anthropic",
    "deepseek-chat",
    "deepseek-chat"⟩]

/-- `_save_presets` of the PyQt6 file (textually identical logic). -/
def save_presets (presets : List ConfigPreset) : FileState :=
  .json (.arr (presets.map (fun p => .obj p.to_dict)))

/-- `_load_presets` of the PyQt6 file: same logic, its own defaults. -/
def load_presets : FileState → List ConfigPreset × FileState
  | .absent => (default_presets, save_presets default_presets)
  | .malformed raw => (default_presets, .malformed raw)
  | .json v =>
      match parsePresets v with
      | some ps => (ps, .json v)
      | none => (default_presets, .json v)

/-- `add_preset` of the PyQt6 file: append, then save the full list. -/
def add_preset (st : ManagerState) (p : ConfigPreset) : ManagerState :=
  let ps := st.presets ++ [p]
  ⟨ps, save_presets ps⟩

/-- `delete_preset` of the PyQt6 file: identical guard and pop. -/
def delete_preset (st : ManagerState) (index : Int) : ManagerState :=
  if 0 ≤ index ∧ index < (st.presets.length : Int) then
    let ps := st.presets.eraseIdx index.toNat
    ⟨ps, save_presets ps⟩
  else st

/-- `apply_preset` of the PyQt6 file, in-process part. -/
def apply_preset (p : ConfigPreset) (env : Env) : Env :=
  envSet (envSet (envSet (envSet env
    "ANTHROPIC_AUTH_TOKEN" p.auth_token)
    "ANTHROPIC_BASE_URL" p.base_url)
    "ANTHROPIC_MODEL" p.model)
    "ANTHROPIC_SMALL_FAST_MODEL" p.small_fast_model

end Pyqt6

/-! ## Helper lemmas -/

/-- Deserializing a serialized preset recovers it. -/
theorem parsePreset_to_dict (p : ConfigPreset) :
    parsePreset (.obj p.to_dict) = some p := by
  simp [parsePreset, ConfigPreset.to_dict, ConfigPreset.from_dict, jlookup]

/-- Deserializing a serialized preset list recovers it. -/
theorem parsePresets_save (ps : List ConfigPreset) :
    parsePresets (.arr (ps.map (fun p => .obj p.to_dict))) = some ps := by
  induction ps with
  | nil => rfl
  | cons p rest ih =>
      simp only [parsePresets, List.map_cons, parsePresetList] at *
      simp [parsePreset_to_dict, ih]

/-! ## C1: save/load round-trip -/

/-- C1: for every sequence of presets, saving it and then loading the
resulting file yields an equal sequence, field-for-field, in order. -/
theorem save_load_round_trip (ps : List ConfigPreset) :
    (Darkmode.load_presets (Darkmode.save_presets ps)).1 = ps := by
  simp [Darkmode.load_presets, Darkmode.save_presets, parsePresets_save]

/-! ## Sample presets used by the concrete witnesses -/

/-- Sample preset A. -/
def pA : ConfigPreset := ⟨"A", "tokA", "urlA", "mA", "sA"⟩

/-- Sample preset B. -/
def pB : ConfigPreset := ⟨"B", "tokB", "urlB", "mB", "sB"⟩

/-- Sample preset C. -/
def pC : ConfigPreset := ⟨"C", "tokC", "urlC", "mC", "sC"⟩

/-! ## C2: in-range delete removes exactly position `i` -/

/-- C2: for `0 <= i < length`, `delete_preset` removes exactly the element
at position `i`: the result keeps the first `i` elements in place and
shifts every later element down by one. -/
theorem delete_preset_shifts (st : ManagerState) (i : Int)
    (h0 : 0 ≤ i) (h1 : i < (st.presets.length : Int)) :
    (Darkmode.delete_preset st i).presets =
      st.presets.take i.toNat ++ st.presets.drop (i.toNat + 1) := by
  simp only [Darkmode.delete_preset, if_pos (And.intro h0 h1)]
  exact List.eraseIdx_eq_take_drop_succ st.presets i.toNat

/-- C2 witness: from `[A, B, C]`, deleting index `1` yields `[A, C]`, and a
subsequent delete at index `1` yields `[A]`. -/
theorem delete_preset_shifts_witness :
    (Darkmode.delete_preset ⟨[pA, pB, pC], .absent⟩ 1).presets = [pA, pC] ∧
    (Darkmode.delete_preset (Darkmode.delete_preset ⟨[pA, pB, pC], .absent⟩ 1) 1).presets
      = [pA] := by
  constructor
  · have h := delete_preset_shifts ⟨[pA, pB, pC], .absent⟩ 1
      (by decide) (by decide)
    simpa using h
  · have h1 : (Darkmode.delete_preset ⟨[pA, pB, pC], .absent⟩ 1).presets = [pA, pC] := by
      have h := delete_preset_shifts ⟨[pA, pB, pC], .absent⟩ 1
        (by decide) (by decide)
      simpa using h
    have h2 := delete_preset_shifts (Darkmode.delete_preset ⟨[pA, pB, pC], .absent⟩ 1) 1
      (by decide) (by simp [h1])
    simpa [h1] using h2

/-! ## C3: out-of-range delete is a no-op -/

/-- C3: for every index outside `0 <= index < length` (negative or at/past
the length), `delete_preset` leaves the state unchanged; being a total
function, it signals no error. -/
theorem delete_preset_out_of_range (st : ManagerState) (i : Int)
    (h : ¬ (0 ≤ i ∧ i < (st.presets.length : Int))) :
    Darkmode.delete_preset st i = st := by
  simp only [Darkmode.delete_preset, if_neg h]

/-- C3 witness: deleting index `5` from the 2-element state `[A, B]` leaves
it unchanged, and so does deleting index `-1`. -/
theorem delete_preset_out_of_range_witness :
    Darkmode.delete_preset ⟨[pA, pB], .absent⟩ 5 = ⟨[pA, pB], .absent⟩ ∧
    Darkmode.delete_preset ⟨[pA, pB], .absent⟩ (-1) = ⟨[pA, pB], .absent⟩ :=
  ⟨delete_preset_out_of_range ⟨[pA, pB], .absent⟩ 5 (by decide),
   delete_preset_out_of_range ⟨[pA, pB], .absent⟩ (-1) (by decide)⟩

/-! ## C4: missing-file bootstrap -/

/-- C4: when the backing file is absent, `load_presets` returns exactly the
one hard-coded default preset and writes that one-preset list to the file,
so afterwards the file holds exactly that preset. -/
theorem load_absent_bootstraps :
    Darkmode.load_presets .absent =
      (Darkmode.default_presets,
       Darkmode.save_presets Darkmode.default_presets) ∧
    Darkmode.default_presets.length = 1 ∧
    (Darkmode.load_presets (Darkmode.save_presets Darkmode.default_presets)).1
      = Darkmode.default_presets := by
  refine ⟨rfl, rfl, ?_⟩
  simp [Darkmode.load_presets, Darkmode.save_presets, parsePresets_save]

/-! ## C5: corrupt-file fallback does not write -/

/-- C5: when the file exists but fails to deserialize — either unparseable
bytes or a JSON value that does not convert (e.g. an element missing a
required field) — `load_presets` returns the default presets in memory and
leaves the file state unchanged. -/
theorem load_corrupt_no_write (raw : String) (v : JValue)
    (hv : parsePresets v = none) :
    Darkmode.load_presets (.malformed raw) =
      (Darkmode.default_presets, .malformed raw) ∧
    Darkmode.load_presets (.json v) = (Darkmode.default_presets, .json v) := by
  refine ⟨rfl, ?_⟩
  simp [Darkmode.load_presets, hv]

/-- C5 witness: a file holding the bytes `"not json"`, and a file holding
the JSON array `[{}]` (one element missing every required field), both fall
back to the defaults with the file left unchanged. -/
theorem load_corrupt_no_write_witness :
    parsePresets (.arr [.obj []]) = none ∧
    Darkmode.load_presets (.malformed "not json") =
      (Darkmode.default_presets, .malformed "not json") ∧
    Darkmode.load_presets (.json (.arr [.obj []])) =
      (Darkmode.default_presets, .json (.arr [.obj []])) :=
  ⟨rfl,
   (load_corrupt_no_write "not json" (.arr [.obj []]) rfl).1,
   (load_corrupt_no_write "not json" (.arr [.obj []]) rfl).2⟩

/-! ## C6: apply sets exactly the four variables -/

/-- C6: `apply_preset` sets the four `ANTHROPIC_*` variables to exactly the
preset's four non-name fields and modifies no other variable. -/
theorem apply_preset_sets_exactly (p : ConfigPreset) (env : Env) :
    Darkmode.apply_preset p env "ANTHROPIC_AUTH_TOKEN" = some p.auth_token ∧
    Darkmode.apply_preset p env "ANTHROPIC_BASE_URL" = some p.base_url ∧
    Darkmode.apply_preset p env "ANTHROPIC_MODEL" = some p.model ∧
    Darkmode.apply_preset p env "ANTHROPIC_SMALL_FAST_MODEL" = some p.small_fast_model ∧
    ∀ k, k ∉ ["ANTHROPIC_AUTH_TOKEN", "ANTHROPIC_BASE_URL",
              "ANTHROPIC_MODEL", "ANTHROPIC_SMALL_FAST_MODEL"] →
      Darkmode.apply_preset p env k = env k := by
  refine ⟨by simp [Darkmode.apply_preset, envSet],
          by simp [Darkmode.apply_preset, envSet],
          by simp [Darkmode.apply_preset, envSet],
          by simp [Darkmode.apply_preset, envSet], ?_⟩
  intro k hk
  simp only [List.mem_cons, List.not_mem_nil, or_false, not_or] at hk
  obtain ⟨h1, h2, h3, h4⟩ := hk
  simp [Darkmode.apply_preset, envSet, h1, h2, h3, h4]

/-- C6 witness: adding the preset `"staging"` with the given values and
then applying it leaves the four target variables holding exactly the
supplied values, while the unrelated variable `"PATH"` is untouched. -/
theorem apply_preset_sets_exactly_witness :
    (Darkmode.add_preset ⟨[pA], .absent⟩ ⟨"staging", "t1", "u1", "m1", "m2"⟩).presets
      = [pA, ⟨"staging", "t1", "u1", "m1", "m2"⟩] ∧
    Darkmode.apply_preset ⟨"staging", "t1", "u1", "m1", "m2"⟩ (fun _ => none)
      "ANTHROPIC_AUTH_TOKEN" = some "t1" ∧
    Darkmode.apply_preset ⟨"staging", "t1", "u1", "m1", "m2"⟩ (fun _ => none)
      "ANTHROPIC_BASE_URL" = some "u1" ∧
    Darkmode.apply_preset ⟨"staging", "t1", "u1", "m1", "m2"⟩ (fun _ => none)
      "ANTHROPIC_MODEL" = some "m1" ∧
    Darkmode.apply_preset ⟨"staging", "t1", "u1", "m1", "m2"⟩ (fun _ => none)
      "ANTHROPIC_SMALL_FAST_MODEL" = some "m2" ∧
    Darkmode.apply_preset ⟨"staging", "t1", "u1", "m1", "m2"⟩ (fun _ => none)
      "PATH" = none := by
  have h := apply_preset_sets_exactly ⟨"staging", "t1", "u1", "m1", "m2"⟩ (fun _ => none)
  exact ⟨rfl, h.1, h.2.1, h.2.2.1, h.2.2.2.1, h.2.2.2.2 "PATH" (by decide)⟩

/-! ## C7: apply is idempotent -/

/-- C7: applying the same preset twice in succession leaves the environment
in the same final state as applying it once. -/
theorem apply_preset_idempotent (p : ConfigPreset) (env : Env) :
    Darkmode.apply_preset p (Darkmode.apply_preset p env) =
      Darkmode.apply_preset p env := by
  funext k
  by_cases h1 : k = "ANTHROPIC_SMALL_FAST_MODEL" <;>
    by_cases h2 : k = "ANTHROPIC_MODEL" <;>
      by_cases h3 : k = "ANTHROPIC_BASE_URL" <;>
        by_cases h4 : k = "ANTHROPIC_AUTH_TOKEN" <;>
          simp [Darkmode.apply_preset, envSet, h1, h2, h3, h4]

/-! ## C9: persistent-store write failure is only a warning -/

/-- C9: on the `win32` platform, when the persistent registry write fails,
`apply_preset` still completes: the failure is reported only as a warning,
nothing is recorded in the persistent store, and the four in-process
environment variables still hold exactly the preset's values. -/
theorem apply_reg_failure_recovers (p : ConfigPreset) (env : Env) :
    (Darkmode.apply_preset_full p env true true).env = Darkmode.apply_preset p env ∧
    (Darkmode.apply_preset_full p env true true).warning = true ∧
    (Darkmode.apply_preset_full p env true true).registry = none ∧
    (Darkmode.apply_preset_full p env true true).env "ANTHROPIC_AUTH_TOKEN"
      = some p.auth_token ∧
    (Darkmode.apply_preset_full p env true true).env "ANTHROPIC_BASE_URL"
      = some p.base_url ∧
    (Darkmode.apply_preset_full p env true true).env "ANTHROPIC_MODEL"
      = some p.model ∧
    (Darkmode.apply_preset_full p env true true).env "ANTHROPIC_SMALL_FAST_MODEL"
      = some p.small_fast_model := by
  refine ⟨rfl, rfl, rfl, ?_, ?_, ?_, ?_⟩ <;>
    simp [Darkmode.apply_preset_full, Darkmode.apply_preset, envSet]

/-! ## C10: extra keys in a stored element are ignored -/

/-- `data` holds (at least) the five required keys, with string values
matching the fields of `p`; any other keys are unconstrained. -/
def hasPresetFields (data : List (String × JValue)) (p : ConfigPreset) : Prop :=
  jlookup "name" data = some (.str p.name) ∧
  jlookup "auth_token" data = some (.str p.auth_token) ∧
  jlookup "base_url" data = some (.str p.base_url) ∧
  jlookup "model" data = some (.str p.model) ∧
  jlookup "small_fast_model" data = some (.str p.small_fast_model)

/-- `from_dict` only reads the five required keys: any dictionary where
those lookups succeed converts, regardless of additional keys. -/
theorem from_dict_of_hasPresetFields (data : List (String × JValue))
    (p : ConfigPreset) (h : hasPresetFields data p) :
    ConfigPreset.from_dict data = some p := by
  obtain ⟨hn, ha, hb, hm, hs⟩ := h
  simp [ConfigPreset.from_dict, hn, ha, hb, hm, hs]

/-- C10: for every JSON array whose elements each contain the five required
keys (with string values), `load_presets` succeeds and returns the presets
built from those five keys, ignoring any additional keys — the strict
five-key format is not enforced on read, and the file is left unchanged. -/
theorem load_ignores_extra_keys (objs : List (List (String × JValue)))
    (ps : List ConfigPreset) (h : List.Forall₂ hasPresetFields objs ps) :
    Darkmode.load_presets (.json (.arr (objs.map JValue.obj))) =
      (ps, .json (.arr (objs.map JValue.obj))) := by
  have hparse : parsePresetList (objs.map JValue.obj) = some ps := by
    induction h with
    | nil => rfl
    | cons hop _ ih =>
        simp [parsePresetList, parsePreset, from_dict_of_hasPresetFields _ _ hop, ih]
  simp [Darkmode.load_presets, parsePresets, hparse]

/-- Sample stored element: the five required keys in scrambled order plus an
additional key `"extra"`. -/
def sampleObjExtra : List (String × JValue) :=
  [("extra", .str "ignored"),
   ("small_fast_model", .str "S"),
   ("name", .str "N"),
   ("model", .str "M"),
   ("auth_token", .str "T"),
   ("base_url", .str "U")]

/-- C10 witness: loading a one-element array whose element carries an extra
key succeeds with the preset built from the five required keys. -/
theorem load_ignores_extra_keys_witness :
    Darkmode.load_presets (.json (.arr [.obj sampleObjExtra])) =
      ([⟨"N", "T", "U", "M", "S"⟩], .json (.arr [.obj sampleObjExtra])) :=
  load_ignores_extra_keys [sampleObjExtra] [⟨"N", "T", "U", "M", "S"⟩]
    (.cons ⟨rfl, rfl, rfl, rfl, rfl⟩ .nil)

/-! ## C8: the two front ends -/

/-- C8 counterexample: the two `ConfigManager`s are not functionally
identical — loading with no backing file synthesizes defaults whose `name`
fields differ (`"测试"` in the darkmode file, `"测试配置"` in the PyQt6
file). -/
theorem frontends_differ_on_default :
    Darkmode.load_presets .absent ≠ Pyqt6.load_presets .absent := by
  intro h
  have h1 := congrArg (fun r => r.1.map ConfigPreset.name) h
  simp [Darkmode.load_presets, Pyqt6.load_presets,
        Darkmode.default_presets, Pyqt6.default_presets] at h1

/-- C8 amended: the two `ConfigManager`s agree on `save`, `add`, `delete`,
`apply` and serialization for every input, and on `load` for every file
state that deserializes successfully; their hard-coded default presets
agree on the four non-name fields but differ in `name`. -/
theorem frontends_equiv_except_default_name :
    (∀ ps, Pyqt6.save_presets ps = Darkmode.save_presets ps) ∧
    (∀ st p, Pyqt6.add_preset st p = Darkmode.add_preset st p) ∧
    (∀ st i, Pyqt6.delete_preset st i = Darkmode.delete_preset st i) ∧
    (∀ p env, Pyqt6.apply_preset p env = Darkmode.apply_preset p env) ∧
    (∀ v ps, parsePresets v = some ps →
      Pyqt6.load_presets (.json v) = Darkmode.load_presets (.json v)) ∧
    (Pyqt6.default_presets.map ConfigPreset.auth_token
       = Darkmode.default_presets.map ConfigPreset.auth_token ∧
     Pyqt6.default_presets.map ConfigPreset.base_url
       = Darkmode.default_presets.map ConfigPreset.base_url ∧
     Pyqt6.default_presets.map ConfigPreset.model
       = Darkmode.default_presets.map ConfigPreset.model ∧
     Pyqt6.default_presets.map ConfigPreset.small_fast_model
       = Darkmode.default_presets.map ConfigPreset.small_fast_model ∧
     Pyqt6.default_presets.map ConfigPreset.name
       ≠ Darkmode.default_presets.map ConfigPreset.name) := by
  refine ⟨fun ps => rfl, fun st p => rfl, fun st i => rfl, fun p env => rfl,
          ?_, rfl, rfl, rfl, rfl, ?_⟩
  · intro v ps hv
    simp [Pyqt6.load_presets, Darkmode.load_presets, hv]
  · simp [Pyqt6.default_presets, Darkmode.default_presets]

/-- C8 witness for the amended claim: on a file holding the serialized
one-element list `[A]`, the two `load` implementations agree. -/
theorem frontends_equiv_witness :
    Pyqt6.load_presets (.json (.arr [.obj pA.to_dict])) =
      Darkmode.load_presets (.json (.arr [.obj pA.to_dict])) :=
  frontends_equiv_except_default_name.2.2.2.2.1 (.arr [.obj pA.to_dict]) [pA] rfl
